import Mathlib

/-!
Shallow embedding of `crates/router/src/db/reverse_lookup.rs` (the
storage-scheme-aware reverse-lookup adapter of the hyperswitch router),
together with models of the external collaborators it calls (fast store,
relational store, drain producer), and theorems settling the spec claims.

External store round-trips are modelled by explicit state passing; the
possibility of transport-level failures of the collaborators is injected
through a `FaultModel` of booleans, one per external call site.
-/

namespace ReverseLookupSpec

/-- Modelled from the spec: the `ReverseLookup` persisted record of
`types::storage::reverse_lookup` (not under `src/`); four string fields. -/
structure ReverseLookup where
  lookup_id : String
  sk_id : String
  pk_id : String
  source : String
deriving DecidableEq, Repr

/-- Modelled from the spec: the `ReverseLookupNew` construction request of
`types::storage::reverse_lookup` (not under `src/`); same four fields. -/
structure ReverseLookupNew where
  lookup_id : String
  sk_id : String
  pk_id : String
  source : String
deriving DecidableEq, Repr

/-- Modelled from the spec: the `From<ReverseLookupNew> for ReverseLookup`
conversion (identity copy of the four fields). -/
def ReverseLookup.fromNew (new : ReverseLookupNew) : ReverseLookup :=
  { lookup_id := new.lookup_id
    sk_id := new.sk_id
    pk_id := new.pk_id
    source := new.source }

/-- The `data_models::MerchantStorageScheme` selector matched on in
`insert_reverse_lookup` and `get_lookup_by_lookup_id`. -/
inductive MerchantStorageScheme
  | PostgresOnly
  | RedisKv
deriving DecidableEq, Repr

/-- The `redis_interface::SetnxReply` returned by the conditional set. -/
inductive SetnxReply
  | KeySet
  | KeyNotSet
deriving DecidableEq, Repr

/-- Modelled from the spec: the failure modes of the fast-store adapter
(`redis_interface`, not under `src/`): transport failure, key miss,
deserialization failure. -/
inductive RedisError
  | transportError
  | notFound
  | deserializeError
deriving DecidableEq, Repr

/-- The `errors::StorageError` variants reachable from the adapter
(`crate::errors` is not under `src/`; the variants named by the adapter code
are `DuplicateValue`, `ValueNotFound` and `KVError`; the connection-acquisition
failures propagated by `?` are modelled as the two `...ConnError` variants). -/
inductive StorageError
  | DuplicateValue (entity : String) (key : Option String)
  | ValueNotFound (msg : String)
  | KVError
  | RedisConnError
  | DatabaseConnError
deriving DecidableEq, Repr

/-- The `kv::Insertable` tag carried by a queued replication instruction. -/
inductive Insertable
  | ReverseLookUp (new : ReverseLookupNew)
deriving DecidableEq, Repr

/-- The `kv::DBOperation` of a queued replication instruction. -/
inductive DBOperation
  | Insert (insertable : Insertable)
deriving DecidableEq, Repr

/-- The `kv::TypedSql` envelope pushed to the drainer stream. -/
structure TypedSql where
  op : DBOperation
deriving DecidableEq, Repr

/-- The `storage_partitioning::PartitionKey` variant used by the adapter. -/
inductive PartitionKey
  | MerchantIdPaymentIdCombination (combination : String)
deriving DecidableEq, Repr

/-- Outcomes of the external store round-trips, one boolean per call site:
`true` means the call reaches the store and succeeds at transport level. -/
structure FaultModel where
  redisConnOk : Bool
  setnxOk : Bool
  enqueueOk : Bool
  getOk : Bool
  deserializeOk : Bool
  pgWriteConnOk : Bool
  pgReadConnOk : Bool
deriving DecidableEq, Repr

/-- The observable state of the three external stores behind a `Store`:
the fast key-value store (keyed serialized records), the drainer stream
(enqueued instructions in enqueue order), and the durable relational store. -/
structure StoreState where
  redis : List (String × ReverseLookup)
  drainer : List (PartitionKey × TypedSql)
  db : List ReverseLookup
deriving DecidableEq, Repr

/-- Value stored in the fast store under `key`, if any. -/
def lookupRedis (redis : List (String × ReverseLookup)) (key : String) :
    Option ReverseLookup :=
  (redis.find? (fun p => p.1 = key)).map (fun p => p.2)

/-- The fast store's atomic conditional set
(`serialize_and_set_key_if_not_exist`): on transport success it reports
`KeySet` and stores the value when the key is absent, `KeyAlreadySet`
(`KeyNotSet`) leaving the store unchanged when the key is present. -/
def serialize_and_set_key_if_not_exist (ok : Bool)
    (redis : List (String × ReverseLookup)) (key : String)
    (value : ReverseLookup) :
    Except RedisError (SetnxReply × List (String × ReverseLookup)) :=
  if ok then
    match lookupRedis redis key with
    | some _ => .ok (.KeyNotSet, redis)
    | none => .ok (.KeySet, redis ++ [(key, value)])
  else .error .transportError

/-- The fast store's `get_and_deserialize_key`: transport failure, miss,
deserialization failure, or the stored value. -/
def get_and_deserialize_key (ok deserOk : Bool)
    (redis : List (String × ReverseLookup)) (key : String) :
    Except RedisError ReverseLookup :=
  if ok then
    match lookupRedis redis key with
    | some v => if deserOk then .ok v else .error .deserializeError
    | none => .error .notFound
  else .error .transportError

/-- Modelled from the spec: the relational adapter's `insert`
(`ReverseLookupNew::insert`, not under `src/`): fails on duplicate key,
otherwise persists and returns the derived record. -/
def dbInsert (db : List ReverseLookup) (new : ReverseLookupNew) :
    Except StorageError ReverseLookup × List ReverseLookup :=
  if db.any (fun r => r.lookup_id = new.lookup_id) then
    (.error (.DuplicateValue "reverse_lookup" (some new.lookup_id)), db)
  else
    let r := ReverseLookup.fromNew new
    (.ok r, db ++ [r])

/-- Modelled from the spec: the relational adapter's
`ReverseLookup::find_by_lookup_id` (not under `src/`): returns the stored
record, or a not-found failure naming the lookup identifier (the spec states
the test double's not-found uses the identical error shape as this path). -/
def dbFind (db : List ReverseLookup) (id : String) :
    Except StorageError ReverseLookup :=
  match db.find? (fun r => r.lookup_id = id) with
  | some r => .ok r
  | none => .error (.ValueNotFound ("No reverse lookup found for lookup_id = " ++ id))

namespace Store

/-- The `Store` impl of `insert_reverse_lookup` (kv_store build): durable-only
scheme inserts into the relational store; fast-path scheme derives the
candidate record, conditionally sets it into the fast store keyed by
`lookup_id`, then on `KeySet` pushes the replication instruction on the
`pk_id` partition (enqueue failure becomes `KVError`, the cache entry stays),
on `KeyNotSet` fails with `DuplicateValue`, and maps a transport failure of
the conditional set to `KVError`. -/
def insert_reverse_lookup (fm : FaultModel) (st : StoreState)
    (new : ReverseLookupNew) (storage_scheme : MerchantStorageScheme) :
    Except StorageError ReverseLookup × StoreState :=
  match storage_scheme with
  | .PostgresOnly =>
    if fm.pgWriteConnOk then
      let res := dbInsert st.db new
      (res.1, { st with db := res.2 })
    else (.error .DatabaseConnError, st)
  | .RedisKv =>
    let created_rev_lookup : ReverseLookup :=
      { lookup_id := new.lookup_id
        sk_id := new.sk_id
        pk_id := new.pk_id
        source := new.source }
    if fm.redisConnOk then
      match serialize_and_set_key_if_not_exist fm.setnxOk st.redis
          created_rev_lookup.lookup_id created_rev_lookup with
      | .ok (.KeySet, redis') =>
        if fm.enqueueOk then
          let redis_entry : TypedSql :=
            { op := .Insert (.ReverseLookUp new) }
          (.ok created_rev_lookup,
            { st with
              redis := redis'
              drainer := st.drainer ++
                [(.MerchantIdPaymentIdCombination created_rev_lookup.pk_id,
                  redis_entry)] })
        else (.error .KVError, { st with redis := redis' })
      | .ok (.KeyNotSet, _) =>
        (.error (.DuplicateValue "reverse_lookup"
          (some created_rev_lookup.lookup_id)), st)
      | .error _ => (.error .KVError, st)
    else (.error .RedisConnError, st)

/-- The `database_call` closure of `get_lookup_by_lookup_id`: acquire a read
connection, then `find_by_lookup_id`. -/
def database_call (fm : FaultModel) (db : List ReverseLookup) (id : String) :
    Except StorageError ReverseLookup :=
  if fm.pgReadConnOk then dbFind db id else .error .DatabaseConnError

/-- Modelled from the spec: `db_utils::try_redis_get_else_try_database_get`
(not under `src/`): on any fast-store failure (miss, deserialize error,
transport error) fall back transparently to the durable read path. -/
def try_redis_get_else_try_database_get
    (redisResult : Except RedisError ReverseLookup)
    (dbResult : Except StorageError ReverseLookup) :
    Except StorageError ReverseLookup :=
  match redisResult with
  | .ok v => .ok v
  | .error _ => dbResult

/-- The `Store` impl of `get_lookup_by_lookup_id` (kv_store build):
durable-only scheme reads the relational store; fast-path scheme tries the
fast-store get-and-deserialize, falling back to the durable read path. -/
def get_lookup_by_lookup_id (fm : FaultModel) (st : StoreState) (id : String)
    (storage_scheme : MerchantStorageScheme) :
    Except StorageError ReverseLookup :=
  match storage_scheme with
  | .PostgresOnly => database_call fm st.db id
  | .RedisKv =>
    if fm.redisConnOk then
      try_redis_get_else_try_database_get
        (get_and_deserialize_key fm.getOk fm.deserializeOk st.redis id)
        (database_call fm st.db id)
    else .error .RedisConnError

end Store

/-- The in-memory test double: a single ordered collection behind a lock. -/
structure MockDb where
  reverse_lookups : List ReverseLookup
deriving DecidableEq, Repr

namespace MockDb

/-- The `MockDb` impl of `insert_reverse_lookup`: converts the request and
pushes it onto the collection unconditionally, returning the record. -/
def insert_reverse_lookup (db : MockDb) (new : ReverseLookupNew)
    (_storage_scheme : MerchantStorageScheme) :
    Except StorageError ReverseLookup × MockDb :=
  let reverse_lookup_insert := ReverseLookup.fromNew new
  (.ok reverse_lookup_insert,
    { reverse_lookups := db.reverse_lookups ++ [reverse_lookup_insert] })

/-- The `MockDb` impl of `get_lookup_by_lookup_id`: linear scan for the first
entry whose `lookup_id` matches, else a not-found error naming the id. -/
def get_lookup_by_lookup_id (db : MockDb) (lookup_id : String)
    (_storage_scheme : MerchantStorageScheme) :
    Except StorageError ReverseLookup :=
  match db.reverse_lookups.find? (fun r => r.lookup_id = lookup_id) with
  | some r => .ok r
  | none =>
    .error (.ValueNotFound
      ("No reverse lookup found for lookup_id = " ++ lookup_id))

end MockDb

/-! Concrete inputs used by counterexamples and witnesses. -/

/-- A fault model where every external call succeeds. -/
def fmAllOk : FaultModel :=
  { redisConnOk := true, setnxOk := true, enqueueOk := true, getOk := true
    deserializeOk := true, pgWriteConnOk := true, pgReadConnOk := true }

/-- A fault model where only the drainer enqueue fails. -/
def fmEnqFail : FaultModel := { fmAllOk with enqueueOk := false }

/-- A fault model where the conditional set fails at transport level. -/
def fmSetnxFail : FaultModel := { fmAllOk with setnxOk := false }

/-- An empty store state. -/
def st0 : StoreState := { redis := [], drainer := [], db := [] }

/-- The Scenario A construction request. -/
def new0 : ReverseLookupNew :=
  { lookup_id := "lk_1", sk_id := "sk_1", pk_id := "pk_1", source := "payment" }

/-- A stored record sharing the `lookup_id` of `new0` but differing elsewhere. -/
def recA : ReverseLookup :=
  { lookup_id := "lk_1", sk_id := "sk_A", pk_id := "pk_A", source := "src_A" }

/-- A test double already holding `recA`. -/
def dbMock1 : MockDb := { reverse_lookups := [recA] }

/-- Claim C1: under the fast-path scheme, when the `lookup_id` is already
present in the fast store (so the atomic conditional set reports the key was
not set), `insert_reverse_lookup` fails with a duplicate-value error naming
that `lookup_id`, and the store state — in particular the drainer stream — is
left unchanged (no replication instruction is enqueued). -/
theorem insert_kv_duplicate_rejected (fm : FaultModel) (st : StoreState)
    (new : ReverseLookupNew) (hconn : fm.redisConnOk = true)
    (hsetnx : fm.setnxOk = true)
    (hdup : (lookupRedis st.redis new.lookup_id).isSome = true) :
    Store.insert_reverse_lookup fm st new .RedisKv =
      (.error (.DuplicateValue "reverse_lookup" (some new.lookup_id)), st) := by
  obtain ⟨v, hv⟩ := Option.isSome_iff_exists.mp hdup
  simp [Store.insert_reverse_lookup, serialize_and_set_key_if_not_exist,
    hconn, hsetnx, hv]

/-- Witness for C1 at a concrete duplicate input. -/
theorem insert_kv_duplicate_rejected_witness :
    Store.insert_reverse_lookup fmAllOk
        { st0 with redis := [("lk_1", recA)] } new0 .RedisKv =
      (.error (.DuplicateValue "reverse_lookup" (some "lk_1")),
       { st0 with redis := [("lk_1", recA)] }) :=
  insert_kv_duplicate_rejected fmAllOk { st0 with redis := [("lk_1", recA)] }
    new0 rfl rfl rfl

/-- Claim C2: under the fast-path scheme, when the conditional set newly sets
the key but the drainer enqueue fails, `insert_reverse_lookup` returns an
error (not the created record), while the fast-store entry that was already
written is left in place and the drainer stream is unchanged. -/
theorem insert_kv_enqueue_failure_fails (fm : FaultModel) (st : StoreState)
    (new : ReverseLookupNew) (hconn : fm.redisConnOk = true)
    (hsetnx : fm.setnxOk = true)
    (habs : lookupRedis st.redis new.lookup_id = none)
    (henq : fm.enqueueOk = false) :
    Store.insert_reverse_lookup fm st new .RedisKv =
      (.error .KVError,
       { st with redis :=
          st.redis ++ [(new.lookup_id, ReverseLookup.fromNew new)] }) := by
  simp [Store.insert_reverse_lookup, serialize_and_set_key_if_not_exist,
    hconn, hsetnx, habs, henq, ReverseLookup.fromNew]

/-- Witness for C2 at a concrete input with a failing enqueue. -/
theorem insert_kv_enqueue_failure_fails_witness :
    Store.insert_reverse_lookup fmEnqFail st0 new0 .RedisKv =
      (.error .KVError,
       { st0 with redis :=
          [("lk_1", ReverseLookup.fromNew new0)] }) :=
  insert_kv_enqueue_failure_fails fmEnqFail st0 new0 rfl rfl rfl rfl

/-- Claim C3 counterexample: the error surfaced when the replication enqueue
fails and the error surfaced when the conditional set fails at transport
level are the same `StorageError` kind (`KVError`), so the caller cannot
distinguish them — refuting the claim that the enqueue-failure error is a
distinct error kind. -/
theorem kv_enqueue_error_not_distinct :
    (Store.insert_reverse_lookup fmEnqFail st0 new0 .RedisKv).1 =
      .error .KVError ∧
    (Store.insert_reverse_lookup fmSetnxFail st0 new0 .RedisKv).1 =
      .error .KVError := ⟨rfl, rfl⟩

/-- Claim C3 (amended): the enqueue-failure error on the fast-path create is
surfaced as the generic `KVError` kind — the same kind used for fast-store
transport-level failures of the conditional set — so it is distinguishable
from the duplicate-value rejection but not from a transport-level error. -/
theorem kv_enqueue_error_kind (fm fm₂ : FaultModel) (st st₂ : StoreState)
    (new new₂ : ReverseLookupNew) (hconn : fm.redisConnOk = true)
    (hsetnx : fm.setnxOk = true)
    (habs : lookupRedis st.redis new.lookup_id = none)
    (henq : fm.enqueueOk = false) (hconn₂ : fm₂.redisConnOk = true)
    (hsetnx₂ : fm₂.setnxOk = false) :
    (Store.insert_reverse_lookup fm st new .RedisKv).1 = .error .KVError ∧
    (Store.insert_reverse_lookup fm₂ st₂ new₂ .RedisKv).1 = .error .KVError ∧
    ∀ e k, (StorageError.KVError ≠ StorageError.DuplicateValue e k) := by
  refine ⟨?_, ?_, ?_⟩
  · simp [Store.insert_reverse_lookup, serialize_and_set_key_if_not_exist,
      hconn, hsetnx, habs, henq]
  · simp [Store.insert_reverse_lookup, serialize_and_set_key_if_not_exist,
      hconn₂, hsetnx₂]
  · intro e k h
    cases h

/-- Witness for the amended C3 at concrete inputs. -/
theorem kv_enqueue_error_kind_witness :
    (Store.insert_reverse_lookup fmEnqFail st0 new0 .RedisKv).1 =
      .error .KVError ∧
    (Store.insert_reverse_lookup fmSetnxFail st0 new0 .RedisKv).1 =
      .error .KVError ∧
    ∀ e k, (StorageError.KVError ≠ StorageError.DuplicateValue e k) :=
  kv_enqueue_error_kind fmEnqFail fmSetnxFail st0 st0 new0 new0
    rfl rfl rfl rfl rfl rfl

/-- The state after a fully successful fast-path create of `new0` from `st0`. -/
def stAfterA : StoreState :=
  { redis := [("lk_1", ReverseLookup.fromNew new0)]
    drainer := [(.MerchantIdPaymentIdCombination "pk_1",
      { op := .Insert (.ReverseLookUp new0) })]
    db := [] }

/-- A successful fast-path create can only arise from the branch in which the
conditional set newly set the key and the enqueue succeeded; it returns the
record derived from the request and appends exactly one instruction to the
drainer stream. -/
lemma insert_kv_ok_elim (fm : FaultModel) (st : StoreState)
    (new : ReverseLookupNew) (r : ReverseLookup) (st' : StoreState)
    (h : Store.insert_reverse_lookup fm st new .RedisKv = (.ok r, st')) :
    r = ReverseLookup.fromNew new ∧
    st'.drainer = st.drainer ++
      [(.MerchantIdPaymentIdCombination new.pk_id,
        { op := .Insert (.ReverseLookUp new) })] := by
  cases hconn : fm.redisConnOk <;> cases hsetnx : fm.setnxOk <;>
    cases henq : fm.enqueueOk <;>
    cases habs : lookupRedis st.redis new.lookup_id <;>
    simp [Store.insert_reverse_lookup, serialize_and_set_key_if_not_exist,
      hconn, hsetnx, henq, habs, ReverseLookup.fromNew] at h
  obtain ⟨h1, h2⟩ := h
  subst h1
  subst h2
  exact ⟨rfl, rfl⟩

/-- A successful durable-only create returns the record derived from the
request. -/
lemma insert_pg_ok_elim (fm : FaultModel) (st : StoreState)
    (new : ReverseLookupNew) (r : ReverseLookup) (st' : StoreState)
    (h : Store.insert_reverse_lookup fm st new .PostgresOnly = (.ok r, st')) :
    r = ReverseLookup.fromNew new := by
  cases hconn : fm.pgWriteConnOk <;>
    cases hdup : st.db.any (fun x => x.lookup_id = new.lookup_id) <;>
    simp [Store.insert_reverse_lookup, dbInsert, hconn, hdup] at h
  exact h.1.symm

/-- Claim C4: every successful create — under either storage scheme on the
`Store`, and on the `MockDb` test double — returns a `ReverseLookup` whose
four fields equal the corresponding fields of the `ReverseLookupNew`
request: the conversion is an identity copy and the record is echoed back
unchanged. -/
theorem insert_echoes_request :
    (∀ (fm : FaultModel) (st : StoreState) (new : ReverseLookupNew)
        (scheme : MerchantStorageScheme) (r : ReverseLookup) (st' : StoreState),
        Store.insert_reverse_lookup fm st new scheme = (.ok r, st') →
        r.lookup_id = new.lookup_id ∧ r.sk_id = new.sk_id ∧
          r.pk_id = new.pk_id ∧ r.source = new.source) ∧
    (∀ (db : MockDb) (new : ReverseLookupNew)
        (scheme : MerchantStorageScheme) (r : ReverseLookup) (db' : MockDb),
        MockDb.insert_reverse_lookup db new scheme = (.ok r, db') →
        r.lookup_id = new.lookup_id ∧ r.sk_id = new.sk_id ∧
          r.pk_id = new.pk_id ∧ r.source = new.source) := by
  constructor
  · intro fm st new scheme r st' h
    cases scheme
    · rw [insert_pg_ok_elim fm st new r st' h]
      exact ⟨rfl, rfl, rfl, rfl⟩
    · rw [(insert_kv_ok_elim fm st new r st' h).1]
      exact ⟨rfl, rfl, rfl, rfl⟩
  · intro db new scheme r db' h
    simp [MockDb.insert_reverse_lookup] at h
    rw [← h.1]
    exact ⟨rfl, rfl, rfl, rfl⟩

/-- Witness for C4 at the Scenario A input. -/
theorem insert_echoes_request_witness :
    (ReverseLookup.fromNew new0).lookup_id = new0.lookup_id ∧
    (ReverseLookup.fromNew new0).sk_id = new0.sk_id ∧
    (ReverseLookup.fromNew new0).pk_id = new0.pk_id ∧
    (ReverseLookup.fromNew new0).source = new0.source :=
  insert_echoes_request.1 fmAllOk st0 new0 .RedisKv
    (ReverseLookup.fromNew new0) stAfterA rfl

/-- Claim C6: on every successful create under the fast-path scheme, exactly
one replication instruction is appended to the drainer stream; it is the
tagged insert operation carrying the original construction request, addressed
by the partition key derived from the record's `pk_id`. -/
theorem insert_kv_enqueues_one (fm : FaultModel) (st : StoreState)
    (new : ReverseLookupNew) (r : ReverseLookup) (st' : StoreState)
    (h : Store.insert_reverse_lookup fm st new .RedisKv = (.ok r, st')) :
    st'.drainer = st.drainer ++
      [(.MerchantIdPaymentIdCombination new.pk_id,
        { op := .Insert (.ReverseLookUp new) })] :=
  (insert_kv_ok_elim fm st new r st' h).2

/-- Witness for C6 at the Scenario A input. -/
theorem insert_kv_enqueues_one_witness :
    stAfterA.drainer = st0.drainer ++
      [(.MerchantIdPaymentIdCombination new0.pk_id,
        { op := .Insert (.ReverseLookUp new0) })] :=
  insert_kv_enqueues_one fmAllOk st0 new0
    (ReverseLookup.fromNew new0) stAfterA rfl

/-- A store state where the record exists only in the durable store. -/
def stDbOnly : StoreState := { redis := [], drainer := [], db := [recA] }

/-- A test double holding two entries that share the same `lookup_id`. -/
def dbDup : MockDb :=
  { reverse_lookups := [recA, ReverseLookup.fromNew new0] }

/-- Claim C5: under the fast-path scheme, `get_lookup_by_lookup_id` returns
the fast-store value when the get-and-deserialize succeeds; on any
fast-store failure it falls back to the durable read path; in particular,
when the key is absent from the fast store the result is exactly the durable
`find_by_lookup_id` result, so a record present only in the durable store is
returned and not-found is reported only when both layers miss. -/
theorem get_kv_fallback (fm : FaultModel) (st : StoreState) (id : String)
    (hconn : fm.redisConnOk = true) :
    (∀ v, get_and_deserialize_key fm.getOk fm.deserializeOk st.redis id = .ok v →
       Store.get_lookup_by_lookup_id fm st id .RedisKv = .ok v) ∧
    (∀ e, get_and_deserialize_key fm.getOk fm.deserializeOk st.redis id = .error e →
       Store.get_lookup_by_lookup_id fm st id .RedisKv =
         Store.database_call fm st.db id) ∧
    (lookupRedis st.redis id = none → fm.pgReadConnOk = true →
       Store.get_lookup_by_lookup_id fm st id .RedisKv = dbFind st.db id) := by
  refine ⟨?_, ?_, ?_⟩
  · intro v hv
    simp [Store.get_lookup_by_lookup_id, hconn,
      Store.try_redis_get_else_try_database_get, hv]
  · intro e he
    simp [Store.get_lookup_by_lookup_id, hconn,
      Store.try_redis_get_else_try_database_get, he]
  · intro habs hread
    cases hget : fm.getOk <;>
      simp [Store.get_lookup_by_lookup_id, hconn,
        Store.try_redis_get_else_try_database_get, get_and_deserialize_key,
        habs, hget, Store.database_call, hread]

/-- Witness for C5: a record present only in the durable store is still
returned under the fast-path scheme. -/
theorem get_kv_fallback_witness :
    Store.get_lookup_by_lookup_id fmAllOk stDbOnly "lk_1" .RedisKv =
      dbFind stDbOnly.db "lk_1" ∧
    dbFind stDbOnly.db "lk_1" = .ok recA :=
  ⟨(get_kv_fallback fmAllOk stDbOnly "lk_1" rfl).2.2 rfl rfl, rfl⟩

/-- Claim C7 counterexample: the test double's `insert_reverse_lookup`, given
a request whose `lookup_id` equals that of an already stored entry, does not
return a duplicate error — it succeeds and appends a second entry with the
same `lookup_id`. -/
theorem mock_insert_duplicate_not_rejected :
    recA.lookup_id = new0.lookup_id ∧
    (MockDb.insert_reverse_lookup dbMock1 new0 .PostgresOnly).1 =
      .ok (ReverseLookup.fromNew new0) ∧
    (MockDb.insert_reverse_lookup dbMock1 new0 .PostgresOnly).2.reverse_lookups =
      [recA, ReverseLookup.fromNew new0] := ⟨rfl, rfl, rfl⟩

/-- Claim C7 (amended): the test double's `insert_reverse_lookup` appends
unconditionally — for every prior collection, request and scheme, it returns
the converted record and pushes it onto the end of the collection, with no
duplicate check and no duplicate error. -/
theorem mock_insert_appends_unconditionally (db : MockDb)
    (new : ReverseLookupNew) (scheme : MerchantStorageScheme) :
    MockDb.insert_reverse_lookup db new scheme =
      (.ok (ReverseLookup.fromNew new),
       { reverse_lookups :=
          db.reverse_lookups ++ [ReverseLookup.fromNew new] }) := rfl

/-- A successful durable-only create can only arise with a write connection
and no stored entry sharing the `lookup_id`; it returns the derived record
and appends it to the durable store. -/
lemma insert_pg_ok_state (fm : FaultModel) (st : StoreState)
    (new : ReverseLookupNew) (r : ReverseLookup) (st' : StoreState)
    (h : Store.insert_reverse_lookup fm st new .PostgresOnly = (.ok r, st')) :
    r = ReverseLookup.fromNew new ∧
    st'.db = st.db ++ [ReverseLookup.fromNew new] ∧
    st.db.any (fun x => x.lookup_id = new.lookup_id) = false := by
  cases hconn : fm.pgWriteConnOk <;>
    cases hdup : st.db.any (fun x => x.lookup_id = new.lookup_id) <;>
    simp [Store.insert_reverse_lookup, dbInsert, hconn, hdup] at h
  obtain ⟨h1, h2⟩ := h
  subst h1
  subst h2
  exact ⟨rfl, rfl, rfl⟩

/-- Claim C8 counterexample: on the test double, starting from a state that
already holds an entry with `lookup_id` `"lk_1"`, a (successful) create of a
different record with the same `lookup_id` followed by `get_by_id` returns
the pre-existing entry, not the record just created. -/
theorem mock_read_after_write_cex :
    (MockDb.insert_reverse_lookup dbMock1 new0 .PostgresOnly).1 =
      .ok (ReverseLookup.fromNew new0) ∧
    MockDb.get_lookup_by_lookup_id
      (MockDb.insert_reverse_lookup dbMock1 new0 .PostgresOnly).2
      new0.lookup_id .PostgresOnly = .ok recA ∧
    recA ≠ ReverseLookup.fromNew new0 := by
  refine ⟨rfl, rfl, ?_⟩
  decide

/-- Claim C8 (amended): read-after-write holds on the durable-only path for
every successful create; on the test double it holds provided no
already-stored entry shares the request's `lookup_id` (otherwise the earlier
entry is returned, since the double appends unconditionally). -/
theorem read_after_write (fm : FaultModel) (st : StoreState)
    (new : ReverseLookupNew) (r : ReverseLookup) (st' : StoreState)
    (db : MockDb) (new₂ : ReverseLookupNew) (r₂ : ReverseLookup)
    (db' : MockDb) (scheme scheme₂ : MerchantStorageScheme) :
    (fm.pgReadConnOk = true →
       Store.insert_reverse_lookup fm st new .PostgresOnly = (.ok r, st') →
       Store.get_lookup_by_lookup_id fm st' new.lookup_id .PostgresOnly =
         .ok r) ∧
    ((∀ x ∈ db.reverse_lookups, x.lookup_id ≠ new₂.lookup_id) →
       MockDb.insert_reverse_lookup db new₂ scheme = (.ok r₂, db') →
       MockDb.get_lookup_by_lookup_id db' new₂.lookup_id scheme₂ = .ok r₂) := by
  constructor
  · intro hread h
    obtain ⟨hr, hdb, hdup⟩ := insert_pg_ok_state fm st new r st' h
    subst hr
    have hnone : st.db.find? (fun x => x.lookup_id = new.lookup_id) = none := by
      rw [List.find?_eq_none]
      intro x hx
      simpa using List.any_eq_false.mp hdup x hx
    simp [Store.get_lookup_by_lookup_id, Store.database_call, hread, dbFind,
      hdb, List.find?_append, hnone, ReverseLookup.fromNew]
  · intro hfresh h
    simp [MockDb.insert_reverse_lookup] at h
    obtain ⟨hr, hdb⟩ := h
    have hnone : db.reverse_lookups.find?
        (fun x => x.lookup_id = new₂.lookup_id) = none := by
      rw [List.find?_eq_none]
      intro x hx
      simpa using hfresh x hx
    simp [MockDb.get_lookup_by_lookup_id, ← hdb, List.find?_append, hnone,
      ← hr, ReverseLookup.fromNew]

/-- Witness for the amended C8: create into an empty double, then read back. -/
theorem read_after_write_witness :
    MockDb.get_lookup_by_lookup_id
      { reverse_lookups := [ReverseLookup.fromNew new0] }
      new0.lookup_id .RedisKv = .ok (ReverseLookup.fromNew new0) :=
  (read_after_write fmAllOk st0 new0 (ReverseLookup.fromNew new0) stAfterA
      { reverse_lookups := [] } new0 (ReverseLookup.fromNew new0)
      { reverse_lookups := [ReverseLookup.fromNew new0] }
      .PostgresOnly .RedisKv).2
    (by simp) rfl

/-- Claim C9: reading an identifier absent from every store fails with a
`ValueNotFound` error naming the lookup identifier — under both storage
schemes on the `Store`, and on the test double. -/
theorem get_missing_not_found :
    (∀ (fm : FaultModel) (st : StoreState) (id : String)
        (scheme : MerchantStorageScheme),
        fm.redisConnOk = true → fm.pgReadConnOk = true →
        lookupRedis st.redis id = none →
        (∀ x ∈ st.db, x.lookup_id ≠ id) →
        Store.get_lookup_by_lookup_id fm st id scheme =
          .error (.ValueNotFound
            ("No reverse lookup found for lookup_id = " ++ id))) ∧
    (∀ (db : MockDb) (id : String) (scheme : MerchantStorageScheme),
        (∀ x ∈ db.reverse_lookups, x.lookup_id ≠ id) →
        MockDb.get_lookup_by_lookup_id db id scheme =
          .error (.ValueNotFound
            ("No reverse lookup found for lookup_id = " ++ id))) := by
  constructor
  · intro fm st id scheme hconn hread habs hmiss
    have hfind : st.db.find? (fun x => x.lookup_id = id) = none := by
      rw [List.find?_eq_none]
      intro x hx
      simpa using hmiss x hx
    cases scheme
    · simp [Store.get_lookup_by_lookup_id, Store.database_call, hread,
        dbFind, hfind]
    · cases hget : fm.getOk <;>
        simp [Store.get_lookup_by_lookup_id, hconn,
          Store.try_redis_get_else_try_database_get, get_and_deserialize_key,
          habs, hget, Store.database_call, hread, dbFind, hfind]
  · intro db id scheme hmiss
    have hfind : db.reverse_lookups.find? (fun x => x.lookup_id = id) = none := by
      rw [List.find?_eq_none]
      intro x hx
      simpa using hmiss x hx
    simp [MockDb.get_lookup_by_lookup_id, hfind]

/-- Witness for C9 at the Scenario D input. -/
theorem get_missing_not_found_witness :
    Store.get_lookup_by_lookup_id fmAllOk st0 "lk_missing" .PostgresOnly =
      .error (.ValueNotFound
        ("No reverse lookup found for lookup_id = " ++ "lk_missing")) :=
  get_missing_not_found.1 fmAllOk st0 "lk_missing" .PostgresOnly rfl rfl rfl
    (by simp [st0])

/-- The first index at which a predicate holds determines the result of
`List.find?`. -/
lemma find?_eq_get_of_first (l : List ReverseLookup)
    (p : ReverseLookup → Bool) :
    ∀ (i : Nat) (hi : i < l.length), p (l.get ⟨i, hi⟩) = true →
    (∀ j (hj : j < l.length), j < i → p (l.get ⟨j, hj⟩) = false) →
    l.find? p = some (l.get ⟨i, hi⟩) := by
  induction l with
  | nil => intro i hi; exact absurd hi (Nat.not_lt_zero i)
  | cons a l ih =>
    intro i hi hp hfirst
    cases i with
    | zero =>
      exact List.find?_cons_of_pos l hp
    | succ i =>
      have ha : p a = false :=
        hfirst 0 (Nat.succ_pos l.length) (Nat.succ_pos i)
      rw [List.find?_cons_of_neg l (by simp [ha])]
      exact ih i (Nat.lt_of_succ_lt_succ hi) hp
        (fun j hj hji =>
          hfirst (j + 1) (Nat.succ_lt_succ hj) (Nat.succ_lt_succ hji))

/-- Claim C10: on the test double, `get_lookup_by_lookup_id` returns the
earliest-inserted stored entry whose `lookup_id` matches (entries are pushed
onto the end of the collection and the scan searches from the front), even
when several entries share that `lookup_id`; the double's read is a pure
function of the collection, which it leaves unchanged. -/
theorem mock_get_returns_earliest (db : MockDb) (id : String)
    (scheme : MerchantStorageScheme) (i : Nat)
    (hi : i < db.reverse_lookups.length)
    (hp : (db.reverse_lookups.get ⟨i, hi⟩).lookup_id = id)
    (hfirst : ∀ j (hj : j < db.reverse_lookups.length), j < i →
       (db.reverse_lookups.get ⟨j, hj⟩).lookup_id ≠ id) :
    MockDb.get_lookup_by_lookup_id db id scheme =
      .ok (db.reverse_lookups.get ⟨i, hi⟩) := by
  have hfind := find?_eq_get_of_first db.reverse_lookups
    (fun r => r.lookup_id = id) i hi
    (by simpa [List.get_eq_getElem] using hp)
    (fun j hj hji => by
      simpa [List.get_eq_getElem] using hfirst j hj hji)
  simp [MockDb.get_lookup_by_lookup_id, hfind]

/-- Witness for C10: with two stored entries sharing `"lk_1"`, the read
returns the earliest one. -/
theorem mock_get_returns_earliest_witness :
    MockDb.get_lookup_by_lookup_id dbDup "lk_1" .RedisKv = .ok recA :=
  mock_get_returns_earliest dbDup "lk_1" .RedisKv 0 (by decide) rfl
    (fun j hj hji => absurd hji (Nat.not_lt_zero j))

end ReverseLookupSpec
